import Mathlib

/-!
# docker-pause-api: request dispatch and container resolution

A shallow embedding of `main.go`.  The Docker daemon is an abstract state
machine (`Client σ`), a handler is a function on an execution record `Exec σ`
that carries the daemon state, the log of client calls, the lines printed on
standard output and the `http.ResponseWriter`.

Library behaviour that the program relies on is modelled as follows.

* `http.Error(w, msg, code)` sets `Content-Type: text/plain; charset=utf-8`
  and `X-Content-Type-Options: nosniff`, calls `WriteHeader(code)` and writes
  `msg` followed by a newline.  `http.NotFound` is
  `http.Error(w, "404 page not found", 404)`.  The removal of `Content-Length`
  done by later Go releases is left out: the program never sets that header.
* The first `Write` on a writer whose header has not been written sends
  status 200.  Header changes after the status line was written are not sent.
  Content sniffing is not modelled: every path of `makeHandler` sets
  `Content-Type` before its first write.
* `json.NewEncoder(w).Encode(v)` is one `Write` whose payload is recorded as
  the value `v` itself (`Chunk.json v`); the byte-level JSON encoding is left
  to the library.
* An index out of range is a Go run-time panic; it is recorded in
  `Outcome.panic` and in `Exec.panicked`, and it ends the handler.
-/

namespace DockerPauseApi

/-! ## Data model -/

/-- The fields of `types.Container` that the program reads. -/
structure Container where
  ID : String
  Names : List String
  State : String
  deriving DecidableEq, Repr

/-- The JSON reply `ContainerStatus` with its single field `state`. -/
structure ContainerStatus where
  State : String
  deriving DecidableEq, Repr

/-- The fields of `http.Request` that the program reads: `r.Method` and `r.URL.Path`. -/
structure Request where
  Method : String
  Path : String
  deriving DecidableEq, Repr

/-- One call made on the Docker client. -/
inductive Call where
  | ContainerList (all : Bool)
  | ContainerPause (id : String)
  | ContainerUnpause (id : String)
  deriving DecidableEq, Repr

/-- A call that changes the daemon: pause or unpause. -/
def Call.isMutating : Call → Bool
  | Call.ContainerList _ => false
  | Call.ContainerPause _ => true
  | Call.ContainerUnpause _ => true

/-- The Docker client as seen by the program, over a daemon state `σ`.
Listing is a query; pause and unpause return an optional error message
(`none` is Go's `nil` error) and the next daemon state. -/
structure Client (σ : Type) where
  ContainerList : σ → Bool → Except String (List Container)
  ContainerPause : σ → String → Option String × σ
  ContainerUnpause : σ → String → Option String × σ

/-- One `Write` on the response body. -/
inductive Chunk where
  | text (s : String)
  | json (v : ContainerStatus)
  deriving DecidableEq, Repr

/-- The observable state of an `http.ResponseWriter`: the header map, the
status code once the header has been written, and the writes on the body. -/
structure ResponseWriter where
  header : List (String × String)
  status : Option Nat
  body : List Chunk
  deriving DecidableEq, Repr

/-- The writer handed to a handler at the start of a request. -/
def ResponseWriter.fresh : ResponseWriter :=
  { header := [], status := none, body := [] }

/-- Model of `w.Header().Set(k, v)`: replaces the values of `k`; without effect on the
response once the header has been written. -/
def ResponseWriter.setHeader (w : ResponseWriter) (k v : String) : ResponseWriter :=
  match w.status with
  | none => { w with header := w.header.filter (fun p => p.1 != k) ++ [(k, v)] }
  | some _ => w

/-- Model of `w.Header().Get(k)`. -/
def ResponseWriter.getHeader (w : ResponseWriter) (k : String) : Option String :=
  w.header.lookup k

/-- Model of `w.WriteHeader(code)`: only the first call counts. -/
def ResponseWriter.writeHeader (w : ResponseWriter) (code : Nat) : ResponseWriter :=
  match w.status with
  | none => { w with status := some code }
  | some _ => w

/-- Model of `w.Write(data)`: an implicit `WriteHeader(200)` when none was written. -/
def ResponseWriter.write (w : ResponseWriter) (c : Chunk) : ResponseWriter :=
  let w1 := w.writeHeader 200
  { w1 with body := w1.body ++ [c] }

/-- Model of `http.Error(w, error, code)`. -/
def httpError (w : ResponseWriter) (error : String) (code : Nat) : ResponseWriter :=
  (((w.setHeader "Content-Type" "text/plain; charset=utf-8").setHeader
    "X-Content-Type-Options" "nosniff").writeHeader code).write (Chunk.text (error ++ "\n"))

/-- Model of `http.NotFound(w, r)`. -/
def httpNotFound (w : ResponseWriter) : ResponseWriter :=
  httpError w "404 page not found" 404

/-- Model of `json.NewEncoder(w).Encode(v)`. -/
def jsonEncode (w : ResponseWriter) (v : ContainerStatus) : ResponseWriter :=
  w.write (Chunk.json v)

/-- The state threaded through one request. -/
structure Exec (σ : Type) where
  daemon : σ
  calls : List Call
  stdout : List String
  w : ResponseWriter
  panicked : Option String

/-- The execution record at the start of a request served on daemon state `s`. -/
def Exec.start {σ : Type} (s : σ) : Exec σ :=
  { daemon := s, calls := [], stdout := [], w := ResponseWriter.fresh, panicked := none }

/-- Model of `fmt.Println(line)`. -/
def Exec.println {σ : Type} (e : Exec σ) (line : String) : Exec σ :=
  { e with stdout := e.stdout ++ [line] }

/-- The pause and unpause calls of an execution, in order. -/
def Exec.mutatingCalls {σ : Type} (e : Exec σ) : List Call :=
  e.calls.filter Call.isMutating

/-- A Go result `(value, error)` or a run-time panic. -/
inductive Outcome (α : Type) where
  | ok (a : α)
  | error (msg : String)
  | panic (msg : String)
  deriving DecidableEq, Repr

/-! ## `getContainer` (main.go 24-37) -/

/-- The message of the error built at main.go 36. -/
def notFoundMessage (name : String) : String :=
  "container with name " ++ name ++ " not found"

/-- The loop of `getContainer` (main.go 30-36). `c.Names[0]` on an empty slice panics. -/
def getContainerLoop (name : String) : List Container → Outcome Container
  | [] => Outcome.error (notFoundMessage name)
  | c :: rest =>
    match c.Names with
    | [] => Outcome.panic "runtime error: index out of range [0] with length 0"
    | n :: _ => if n = "/" ++ name then Outcome.ok c else getContainerLoop name rest

/-- Model of `getContainer(ctx, cli, name)`: one listing call with `All: true`, then the scan. -/
def getContainer {σ : Type} (cli : Client σ) (name : String) (e : Exec σ) :
    Outcome Container × Exec σ :=
  let e1 := { e with calls := e.calls ++ [Call.ContainerList true] }
  match cli.ContainerList e.daemon true with
  | Except.error err => (Outcome.error err, e1)
  | Except.ok containers => (getContainerLoop name containers, e1)

/-! ## The action handlers (main.go 39-68) -/

/-- The type of the `fn` argument of `makeHandler`. -/
abbrev HandlerFn (σ : Type) : Type :=
  Request → Client σ → Container → Exec σ → Exec σ

/-- Model of `statusHandler` (main.go 39-42). -/
def statusHandler {σ : Type} : HandlerFn σ := fun _r _cli container e =>
  let e1 := e.println "GET /status"
  { e1 with w := jsonEncode e1.w { State := container.State } }

/-- Model of `startHandler` (main.go 44-55). -/
def startHandler {σ : Type} : HandlerFn σ := fun _r cli container e =>
  let e1 := e.println "POST /start"
  if container.State = "paused" then
    match cli.ContainerUnpause e1.daemon container.ID with
    | (some err, s) =>
      { e1 with daemon := s, calls := e1.calls ++ [Call.ContainerUnpause container.ID],
                w := httpError e1.w err 500 }
    | (none, s) =>
      { e1 with daemon := s, calls := e1.calls ++ [Call.ContainerUnpause container.ID],
                w := jsonEncode e1.w { State := "unpausing" } }
  else
    { e1 with w := jsonEncode e1.w { State := container.State } }

/-- Model of `stopHandler` (main.go 57-68). -/
def stopHandler {σ : Type} : HandlerFn σ := fun _r cli container e =>
  let e1 := e.println "POST /stop"
  if container.State = "running" then
    match cli.ContainerPause e1.daemon container.ID with
    | (some err, s) =>
      { e1 with daemon := s, calls := e1.calls ++ [Call.ContainerPause container.ID],
                w := httpError e1.w err 500 }
    | (none, s) =>
      { e1 with daemon := s, calls := e1.calls ++ [Call.ContainerPause container.ID],
                w := jsonEncode e1.w { State := "pausing" } }
  else
    { e1 with w := jsonEncode e1.w { State := container.State } }

/-! ## `makeHandler` and the routes of `main` (main.go 70-95, 124-126) -/

/-- Model of `validPath.FindStringSubmatch(path)` for the expression `^/(status|start|stop)$`:
the whole match and the captured group, or `none` (Go's `nil`). -/
def validPath (path : String) : Option (List String) :=
  if path = "/status" then some ["/status", "status"]
  else if path = "/start" then some ["/start", "start"]
  else if path = "/stop" then some ["/stop", "stop"]
  else none

/-- Model of the handler returned by `makeHandler(fn, method, cli, containerName)`. -/
def makeHandler {σ : Type} (fn : HandlerFn σ) (method : String) (cli : Client σ)
    (containerName : String) (r : Request) (e : Exec σ) : Exec σ :=
  if r.Method ≠ method then
    { e with w := httpNotFound e.w }
  else
    match validPath r.Path with
    | none => { e with w := httpNotFound e.w }
    | some _m =>
      match getContainer cli containerName e with
      | (Outcome.panic msg, e1) => { e1 with panicked := some msg }
      | (Outcome.error _, e1) => { e1 with w := httpNotFound e1.w }
      | (Outcome.ok container, e1) =>
        fn r cli container { e1 with w := e1.w.setHeader "Content-Type" "application/json" }

/-- The three registrations of `main` (main.go 124-126). -/
inductive Route where
  | status
  | start
  | stop
  deriving DecidableEq, Repr

/-- The pattern a route is registered under. -/
def Route.pattern : Route → String
  | Route.status => "/status"
  | Route.start => "/start"
  | Route.stop => "/stop"

/-- The method passed to `makeHandler` for a route. -/
def Route.method : Route → String
  | Route.status => "GET"
  | Route.start => "POST"
  | Route.stop => "POST"

/-- The action handler passed to `makeHandler` for a route. -/
def Route.fn {σ : Type} : Route → HandlerFn σ
  | Route.status => statusHandler
  | Route.start => startHandler
  | Route.stop => stopHandler

/-- The handler registered for a route. -/
def Route.handler {σ : Type} (rt : Route) (cli : Client σ) (containerName : String) :
    Request → Exec σ → Exec σ :=
  makeHandler rt.fn rt.method cli containerName

/-! ## Concrete daemons used to instantiate the theorems -/

/-- Replaces the state of the container with the given id. -/
def setState (id state : String) (s : List Container) : List Container :=
  s.map (fun c => if c.ID = id then { c with State := state } else c)

/-- An in-memory daemon: the state is the listing, pause and unpause succeed. -/
def memClient : Client (List Container) where
  ContainerList := fun s _ => Except.ok s
  ContainerPause := fun s id => (none, setState id "paused" s)
  ContainerUnpause := fun s id => (none, setState id "running" s)

/-- An in-memory daemon whose pause and unpause calls are rejected. -/
def rejectingClient : Client (List Container) where
  ContainerList := fun s _ => Except.ok s
  ContainerPause := fun s _ => (some "cannot pause", s)
  ContainerUnpause := fun s _ => (some "cannot unpause", s)

/-- A daemon that cannot be reached: every call fails. -/
def downClient : Client Unit where
  ContainerList := fun _ _ => Except.error "cannot connect to the Docker daemon"
  ContainerPause := fun s _ => (some "cannot connect to the Docker daemon", s)
  ContainerUnpause := fun s _ => (some "cannot connect to the Docker daemon", s)

/-- A paused container named `web`. -/
def webPaused : Container := { ID := "b", Names := ["/web"], State := "paused" }

/-- A running container named `web`. -/
def webRunning : Container := { ID := "c", Names := ["/web"], State := "running" }

/-- A container record without any name. -/
def unnamed : Container := { ID := "a", Names := [], State := "created" }

/-! ## Lemmas on the response writer -/

theorem jsonEncode_body (w : ResponseWriter) (v : ContainerStatus) :
    (jsonEncode w v).body = w.body ++ [Chunk.json v] := by
  unfold jsonEncode ResponseWriter.write ResponseWriter.writeHeader
  cases h : w.status <;> simp [h]

theorem jsonEncode_status (w : ResponseWriter) (v : ContainerStatus) :
    (jsonEncode w v).status = some (w.status.getD 200) := by
  unfold jsonEncode ResponseWriter.write ResponseWriter.writeHeader
  cases h : w.status <;> simp [h]

theorem jsonEncode_header (w : ResponseWriter) (v : ContainerStatus) :
    (jsonEncode w v).header = w.header := by
  unfold jsonEncode ResponseWriter.write ResponseWriter.writeHeader
  cases h : w.status <;> simp [h]

/-! ## The action handlers -/

/-- C1: on a container whose state is "paused", `startHandler` issues exactly one client
call, the unpause of that container's id, and when that call returns no error it writes the
status object with state "unpausing"; on every other state it issues no client call, leaves
the daemon as it was and writes the status object with the container's state unchanged. -/
theorem startHandler_spec {σ : Type} (cli : Client σ) (r : Request) (c : Container)
    (e : Exec σ) :
    (c.State = "paused" →
      (startHandler r cli c e).calls = e.calls ++ [Call.ContainerUnpause c.ID] ∧
      (startHandler r cli c e).daemon = (cli.ContainerUnpause e.daemon c.ID).2 ∧
      ((cli.ContainerUnpause e.daemon c.ID).1 = none →
        (startHandler r cli c e).w.body = e.w.body ++ [Chunk.json { State := "unpausing" }] ∧
        (startHandler r cli c e).w.status = some (e.w.status.getD 200) ∧
        (startHandler r cli c e).w.header = e.w.header)) ∧
    (c.State ≠ "paused" →
      (startHandler r cli c e).calls = e.calls ∧
      (startHandler r cli c e).daemon = e.daemon ∧
      (startHandler r cli c e).w.body = e.w.body ++ [Chunk.json { State := c.State }] ∧
      (startHandler r cli c e).w.status = some (e.w.status.getD 200) ∧
      (startHandler r cli c e).w.header = e.w.header) := by
  constructor
  · intro hs
    rcases hu : cli.ContainerUnpause e.daemon c.ID with ⟨o, s⟩
    cases o <;>
      simp [startHandler, Exec.println, hs, hu, jsonEncode_body, jsonEncode_status,
        jsonEncode_header]
  · intro hs
    simp [startHandler, Exec.println, hs, jsonEncode_body, jsonEncode_status,
      jsonEncode_header]

/-- Instance of `startHandler_spec`: a paused and a running container on the in-memory daemon. -/
theorem startHandler_spec_witness :
    (webPaused.State = "paused" ∧
      (startHandler { Method := "POST", Path := "/start" } memClient webPaused
        (Exec.start [webPaused])).calls = [Call.ContainerUnpause "b"] ∧
      (startHandler { Method := "POST", Path := "/start" } memClient webPaused
        (Exec.start [webPaused])).w.body = [Chunk.json { State := "unpausing" }]) ∧
    (webRunning.State ≠ "paused" ∧
      (startHandler { Method := "POST", Path := "/start" } memClient webRunning
        (Exec.start [webRunning])).calls = [] ∧
      (startHandler { Method := "POST", Path := "/start" } memClient webRunning
        (Exec.start [webRunning])).w.body = [Chunk.json { State := "running" }]) :=
  ⟨⟨rfl,
    ((startHandler_spec memClient { Method := "POST", Path := "/start" } webPaused
      (Exec.start [webPaused])).1 rfl).1,
    (((startHandler_spec memClient { Method := "POST", Path := "/start" } webPaused
      (Exec.start [webPaused])).1 rfl).2.2 rfl).1⟩,
   ⟨by decide,
    ((startHandler_spec memClient { Method := "POST", Path := "/start" } webRunning
      (Exec.start [webRunning])).2 (by decide)).1,
    ((startHandler_spec memClient { Method := "POST", Path := "/start" } webRunning
      (Exec.start [webRunning])).2 (by decide)).2.2.1⟩⟩

/-- C2: on a container whose state is "running", `stopHandler` issues exactly one client
call, the pause of that container's id, and when that call returns no error it writes the
status object with state "pausing"; on every other state it issues no client call, leaves
the daemon as it was and writes the status object with the container's state unchanged. -/
theorem stopHandler_spec {σ : Type} (cli : Client σ) (r : Request) (c : Container)
    (e : Exec σ) :
    (c.State = "running" →
      (stopHandler r cli c e).calls = e.calls ++ [Call.ContainerPause c.ID] ∧
      (stopHandler r cli c e).daemon = (cli.ContainerPause e.daemon c.ID).2 ∧
      ((cli.ContainerPause e.daemon c.ID).1 = none →
        (stopHandler r cli c e).w.body = e.w.body ++ [Chunk.json { State := "pausing" }] ∧
        (stopHandler r cli c e).w.status = some (e.w.status.getD 200) ∧
        (stopHandler r cli c e).w.header = e.w.header)) ∧
    (c.State ≠ "running" →
      (stopHandler r cli c e).calls = e.calls ∧
      (stopHandler r cli c e).daemon = e.daemon ∧
      (stopHandler r cli c e).w.body = e.w.body ++ [Chunk.json { State := c.State }] ∧
      (stopHandler r cli c e).w.status = some (e.w.status.getD 200) ∧
      (stopHandler r cli c e).w.header = e.w.header) := by
  constructor
  · intro hs
    rcases hu : cli.ContainerPause e.daemon c.ID with ⟨o, s⟩
    cases o <;>
      simp [stopHandler, Exec.println, hs, hu, jsonEncode_body, jsonEncode_status,
        jsonEncode_header]
  · intro hs
    simp [stopHandler, Exec.println, hs, jsonEncode_body, jsonEncode_status,
      jsonEncode_header]

/-- Instance of `stopHandler_spec`: a running and a paused container on the in-memory daemon. -/
theorem stopHandler_spec_witness :
    (webRunning.State = "running" ∧
      (stopHandler { Method := "POST", Path := "/stop" } memClient webRunning
        (Exec.start [webRunning])).calls = [Call.ContainerPause "c"] ∧
      (stopHandler { Method := "POST", Path := "/stop" } memClient webRunning
        (Exec.start [webRunning])).w.body = [Chunk.json { State := "pausing" }]) ∧
    (webPaused.State ≠ "running" ∧
      (stopHandler { Method := "POST", Path := "/stop" } memClient webPaused
        (Exec.start [webPaused])).calls = [] ∧
      (stopHandler { Method := "POST", Path := "/stop" } memClient webPaused
        (Exec.start [webPaused])).w.body = [Chunk.json { State := "paused" }]) :=
  ⟨⟨rfl,
    ((stopHandler_spec memClient { Method := "POST", Path := "/stop" } webRunning
      (Exec.start [webRunning])).1 rfl).1,
    (((stopHandler_spec memClient { Method := "POST", Path := "/stop" } webRunning
      (Exec.start [webRunning])).1 rfl).2.2 rfl).1⟩,
   ⟨by decide,
    ((stopHandler_spec memClient { Method := "POST", Path := "/stop" } webPaused
      (Exec.start [webPaused])).2 (by decide)).1,
    ((stopHandler_spec memClient { Method := "POST", Path := "/stop" } webPaused
      (Exec.start [webPaused])).2 (by decide)).2.2.1⟩⟩

/-! ## Lemmas on `validPath`, `getContainer` and `makeHandler` -/

theorem validPath_isSome_iff (p : String) :
    (validPath p).isSome = true ↔ (p = "/status" ∨ p = "/start" ∨ p = "/stop") := by
  unfold validPath
  by_cases h1 : p = "/status"
  · simp [h1]
  · by_cases h2 : p = "/start"
    · simp [h2]
    · by_cases h3 : p = "/stop"
      · simp [h3]
      · simp [h1, h2, h3]

theorem getContainer_snd {σ : Type} (cli : Client σ) (name : String) (e : Exec σ) :
    (getContainer cli name e).2 = { e with calls := e.calls ++ [Call.ContainerList true] } := by
  unfold getContainer
  cases cli.ContainerList e.daemon true <;> rfl

/-- When every listed container has a name, the loop returns the first container whose first
name is "/" followed by the requested name, and the not-found error when there is none. -/
theorem getContainerLoop_of_named (name : String) (cs : List Container)
    (h : ∀ c ∈ cs, c.Names ≠ []) :
    getContainerLoop name cs =
      match cs.find? (fun c => c.Names.head? == some ("/" ++ name)) with
      | some c => Outcome.ok c
      | none => Outcome.error (notFoundMessage name) := by
  induction cs with
  | nil => rfl
  | cons c rest ih =>
    have hc : c.Names ≠ [] := h c (List.mem_cons_self _ _)
    have hr : ∀ d ∈ rest, d.Names ≠ [] := fun d hd => h d (List.mem_cons_of_mem _ hd)
    cases hn : c.Names with
    | nil => exact absurd hn hc
    | cons n ns =>
      by_cases hq : n = "/" ++ name
      · simp [getContainerLoop, hn, hq, List.find?]
      · have hb : (n == "/" ++ name) = false := by simpa using hq
        simp [getContainerLoop, hn, hq, List.find?, hb, ih hr]

/-- With the right method, a valid path and a resolved container, the handler sets the JSON
content type and runs the action handler. -/
theorem makeHandler_resolved {σ : Type} (fn : HandlerFn σ) (method : String) (cli : Client σ)
    (name : String) (r : Request) (e : Exec σ) (c : Container)
    (hm : r.Method = method) (hp : r.Path = "/status" ∨ r.Path = "/start" ∨ r.Path = "/stop")
    (hc : (getContainer cli name e).1 = Outcome.ok c) :
    makeHandler fn method cli name r e =
      fn r cli c { e with calls := e.calls ++ [Call.ContainerList true],
                          w := e.w.setHeader "Content-Type" "application/json" } := by
  have hv := (validPath_isSome_iff r.Path).2 hp
  have h2 := getContainer_snd cli name e
  unfold makeHandler
  rcases hg : getContainer cli name e with ⟨o, e1⟩
  rw [hg] at hc h2
  simp only at hc h2
  subst hc h2
  cases hq : validPath r.Path with
  | none => simp [hq] at hv
  | some m => simp [hm, hg]

/-- With the right method and a valid path, any error of `getContainer` is answered with
`http.NotFound`, and the action handler is not run. -/
theorem makeHandler_unresolved {σ : Type} (fn : HandlerFn σ) (method : String) (cli : Client σ)
    (name : String) (r : Request) (e : Exec σ) (msg : String)
    (hm : r.Method = method) (hp : r.Path = "/status" ∨ r.Path = "/start" ∨ r.Path = "/stop")
    (hc : (getContainer cli name e).1 = Outcome.error msg) :
    makeHandler fn method cli name r e =
      { e with calls := e.calls ++ [Call.ContainerList true], w := httpNotFound e.w } := by
  have hv := (validPath_isSome_iff r.Path).2 hp
  have h2 := getContainer_snd cli name e
  unfold makeHandler
  rcases hg : getContainer cli name e with ⟨o, e1⟩
  rw [hg] at hc h2
  simp only at hc h2
  subst hc h2
  cases hq : validPath r.Path with
  | none => simp [hq] at hv
  | some m => simp [hm, hg]

/-- A panic inside `getContainer` ends the handler before anything is written. -/
theorem makeHandler_panicked {σ : Type} (fn : HandlerFn σ) (method : String) (cli : Client σ)
    (name : String) (r : Request) (e : Exec σ) (msg : String)
    (hm : r.Method = method) (hp : r.Path = "/status" ∨ r.Path = "/start" ∨ r.Path = "/stop")
    (hc : (getContainer cli name e).1 = Outcome.panic msg) :
    makeHandler fn method cli name r e =
      { e with calls := e.calls ++ [Call.ContainerList true], panicked := some msg } := by
  have hv := (validPath_isSome_iff r.Path).2 hp
  have h2 := getContainer_snd cli name e
  unfold makeHandler
  rcases hg : getContainer cli name e with ⟨o, e1⟩
  rw [hg] at hc h2
  simp only at hc h2
  subst hc h2
  cases hq : validPath r.Path with
  | none => simp [hq] at hv
  | some m => simp [hm, hg]

/-- When the listing succeeds, every listed container has a name and none of them is the
configured one, the request is answered with `http.NotFound` after the single listing call. -/
theorem makeHandler_not_found_of_named {σ : Type} (fn : HandlerFn σ) (method : String)
    (cli : Client σ) (name : String) (r : Request) (s : σ) (cs : List Container)
    (hm : r.Method = method) (hp : r.Path = "/status" ∨ r.Path = "/start" ∨ r.Path = "/stop")
    (hl : cli.ContainerList s true = Except.ok cs)
    (hn : ∀ c ∈ cs, c.Names ≠ [])
    (hno : ∀ c ∈ cs, c.Names.head? ≠ some ("/" ++ name)) :
    makeHandler fn method cli name r (Exec.start s) =
      { Exec.start s with calls := [Call.ContainerList true],
                          w := httpNotFound ResponseWriter.fresh } := by
  have hl1 : cli.ContainerList (Exec.start s).daemon true = Except.ok cs := hl
  have hf : cs.find? (fun c => c.Names.head? == some ("/" ++ name)) = none := by
    rw [List.find?_eq_none]
    intro c hc
    simpa using hno c hc
  have hg : (getContainer cli name (Exec.start s)).1 =
      Outcome.error (notFoundMessage name) := by
    simp [getContainer, hl1, getContainerLoop_of_named name cs hn, hf]
  exact makeHandler_unresolved fn method cli name r (Exec.start s) _ hm hp hg

/-! ## The status route -/

/-- C3: a GET request on the handler built for `statusHandler`, with a resolved container of
state S, is answered 200 with the status object whose state is S; the only client call is the
listing, no pause or unpause is issued, the daemon is left as it was, and the same request
served again on the resulting daemon state gets the same response. -/
theorem status_reports_state {σ : Type} (cli : Client σ) (name : String) (r : Request) (s : σ)
    (c : Container) (hm : r.Method = "GET")
    (hp : r.Path = "/status" ∨ r.Path = "/start" ∨ r.Path = "/stop")
    (hc : (getContainer cli name (Exec.start s)).1 = Outcome.ok c) :
    (makeHandler statusHandler "GET" cli name r (Exec.start s)).w.status = some 200 ∧
    (makeHandler statusHandler "GET" cli name r (Exec.start s)).w.body =
      [Chunk.json { State := c.State }] ∧
    (makeHandler statusHandler "GET" cli name r (Exec.start s)).calls =
      [Call.ContainerList true] ∧
    (makeHandler statusHandler "GET" cli name r (Exec.start s)).mutatingCalls = [] ∧
    (makeHandler statusHandler "GET" cli name r (Exec.start s)).panicked = none ∧
    (makeHandler statusHandler "GET" cli name r (Exec.start s)).daemon = s ∧
    (makeHandler statusHandler "GET" cli name r
      (Exec.start (makeHandler statusHandler "GET" cli name r (Exec.start s)).daemon)).w =
      (makeHandler statusHandler "GET" cli name r (Exec.start s)).w := by
  have h := makeHandler_resolved statusHandler "GET" cli name r (Exec.start s) c hm hp hc
  have hd : (makeHandler statusHandler "GET" cli name r (Exec.start s)).daemon = s := by
    rw [h]; rfl
  refine ⟨?_, ?_, ?_, ?_, ?_, hd, ?_⟩
  · rw [h]; rfl
  · rw [h]; rfl
  · rw [h]; rfl
  · rw [h]; rfl
  · rw [h]; rfl
  · rw [hd]

/-- Instance of `status_reports_state`: GET /status for a paused container `web`. -/
theorem status_reports_state_witness :
    (getContainer memClient "web" (Exec.start [webPaused])).1 = Outcome.ok webPaused ∧
    (makeHandler statusHandler "GET" memClient "web" { Method := "GET", Path := "/status" }
      (Exec.start [webPaused])).w.body = [Chunk.json { State := "paused" }] :=
  ⟨rfl,
   (status_reports_state memClient "web" { Method := "GET", Path := "/status" } [webPaused]
     webPaused rfl (Or.inl rfl) rfl).2.1⟩

/-! ## Rejected requests -/

/-- C4: when the request method differs from the method the handler was built with, or the
path is none of /status, /start and /stop, the handler built by `makeHandler` answers 404
through `http.NotFound` and makes no client call at all: the result does not depend on the
action handler and the daemon is left as it was. -/
theorem makeHandler_rejects_request {σ : Type} (fn : HandlerFn σ) (method : String)
    (cli : Client σ) (name : String) (r : Request) (s : σ)
    (h : r.Method ≠ method ∨ (r.Path ≠ "/status" ∧ r.Path ≠ "/start" ∧ r.Path ≠ "/stop")) :
    makeHandler fn method cli name r (Exec.start s) =
      { Exec.start s with w := httpNotFound ResponseWriter.fresh } ∧
    (makeHandler fn method cli name r (Exec.start s)).w.status = some 404 ∧
    (makeHandler fn method cli name r (Exec.start s)).w.body =
      [Chunk.text "404 page not found\n"] ∧
    (makeHandler fn method cli name r (Exec.start s)).calls = [] ∧
    (makeHandler fn method cli name r (Exec.start s)).daemon = s ∧
    (makeHandler fn method cli name r (Exec.start s)).panicked = none := by
  have key : makeHandler fn method cli name r (Exec.start s) =
      { Exec.start s with w := httpNotFound ResponseWriter.fresh } := by
    unfold makeHandler
    by_cases hm : r.Method = method
    · rcases h with h | ⟨h1, h2, h3⟩
      · exact absurd hm h
      · have hv : validPath r.Path = none := by simp [validPath, h1, h2, h3]
        simp [hm, hv]
        rfl
    · simp [hm]
      rfl
  refine ⟨key, ?_, ?_, ?_, ?_, ?_⟩ <;> rw [key] <;> rfl

/-- Instance of `makeHandler_rejects_request`: GET on the start route, and POST on the start
route with a path that is not one of the three. -/
theorem makeHandler_rejects_request_witness :
    ("GET" ≠ "POST" ∧
      (makeHandler startHandler "POST" memClient "web" { Method := "GET", Path := "/start" }
        (Exec.start [webPaused])).w.status = some 404 ∧
      (makeHandler startHandler "POST" memClient "web" { Method := "GET", Path := "/start" }
        (Exec.start [webPaused])).calls = []) ∧
    (makeHandler startHandler "POST" memClient "web" { Method := "POST", Path := "/start/" }
        (Exec.start [webPaused])).calls = [] :=
  ⟨⟨by decide,
    (makeHandler_rejects_request startHandler "POST" memClient "web"
      { Method := "GET", Path := "/start" } [webPaused] (Or.inl (by decide))).2.1,
    (makeHandler_rejects_request startHandler "POST" memClient "web"
      { Method := "GET", Path := "/start" } [webPaused] (Or.inl (by decide))).2.2.2.1⟩,
   (makeHandler_rejects_request startHandler "POST" memClient "web"
      { Method := "POST", Path := "/start/" } [webPaused]
      (Or.inr ⟨by decide, by decide, by decide⟩)).2.2.2.1⟩

/-! ## Listings that contain a container without a name -/

/-- C5: on the listing that holds one container without any name, no container matches the
configured name "web", yet GET /status is not answered 404: the handler panics at
`c.Names[0]` inside `getContainer` and nothing is written to the response. -/
theorem status_route_panics_on_unnamed_container :
    (∀ c ∈ [unnamed], c.Names.head? ≠ some ("/" ++ "web")) ∧
    (Route.status.handler memClient "web" { Method := "GET", Path := "/status" }
      (Exec.start [unnamed])).panicked =
        some "runtime error: index out of range [0] with length 0" ∧
    (Route.status.handler memClient "web" { Method := "GET", Path := "/status" }
      (Exec.start [unnamed])).w.status = none ∧
    (Route.status.handler memClient "web" { Method := "GET", Path := "/status" }
      (Exec.start [unnamed])).w.body = [] := by
  refine ⟨by decide, rfl, rfl, rfl⟩

/-- C6: on the listing that holds a container without any name followed by the running
container named "/web", the scan for "web" panics at the first entry and does not return the
matching container, which it does return when the nameless entry is absent. -/
theorem getContainerLoop_panics_before_match :
    getContainerLoop "web" [unnamed, webRunning] =
      Outcome.panic "runtime error: index out of range [0] with length 0" ∧
    getContainerLoop "web" [unnamed, webRunning] ≠ Outcome.ok webRunning ∧
    getContainerLoop "web" [webRunning] = Outcome.ok webRunning := by
  decide

/-- C10: on the successful listing that holds one container whose list of names is empty,
`getContainer` yields neither a container nor an error: the access `c.Names[0]` is out of
range and the call panics. -/
theorem getContainer_panics_on_empty_names :
    (getContainer memClient "web" (Exec.start [unnamed])).1 =
      Outcome.panic "runtime error: index out of range [0] with length 0" := by
  rfl

/-! ## Failure of the pause and unpause calls -/

/-- C7: for a POST request with a resolved container, when the container is paused and the
unpause call of the start route returns an error, or the container is running and the pause
call of the stop route returns an error, the response is 500 with content type text/plain and
a body that is the error message followed by a newline (as `http.Error` writes it), no status
object is written, and the calls made are the listing and that single unpause or pause. -/
theorem action_failure_is_500 {σ : Type} (cli : Client σ) (name : String) (r : Request)
    (s s1 : σ) (c : Container) (msg : String) (hm : r.Method = "POST")
    (hp : r.Path = "/status" ∨ r.Path = "/start" ∨ r.Path = "/stop")
    (hc : (getContainer cli name (Exec.start s)).1 = Outcome.ok c) :
    (c.State = "paused" → cli.ContainerUnpause s c.ID = (some msg, s1) →
      (makeHandler startHandler "POST" cli name r (Exec.start s)).w.status = some 500 ∧
      (makeHandler startHandler "POST" cli name r (Exec.start s)).w.body =
        [Chunk.text (msg ++ "\n")] ∧
      (makeHandler startHandler "POST" cli name r (Exec.start s)).w.getHeader "Content-Type" =
        some "text/plain; charset=utf-8" ∧
      (∀ v, Chunk.json v ∉ (makeHandler startHandler "POST" cli name r (Exec.start s)).w.body) ∧
      (makeHandler startHandler "POST" cli name r (Exec.start s)).calls =
        [Call.ContainerList true, Call.ContainerUnpause c.ID] ∧
      (makeHandler startHandler "POST" cli name r (Exec.start s)).mutatingCalls =
        [Call.ContainerUnpause c.ID]) ∧
    (c.State = "running" → cli.ContainerPause s c.ID = (some msg, s1) →
      (makeHandler stopHandler "POST" cli name r (Exec.start s)).w.status = some 500 ∧
      (makeHandler stopHandler "POST" cli name r (Exec.start s)).w.body =
        [Chunk.text (msg ++ "\n")] ∧
      (makeHandler stopHandler "POST" cli name r (Exec.start s)).w.getHeader "Content-Type" =
        some "text/plain; charset=utf-8" ∧
      (∀ v, Chunk.json v ∉ (makeHandler stopHandler "POST" cli name r (Exec.start s)).w.body) ∧
      (makeHandler stopHandler "POST" cli name r (Exec.start s)).calls =
        [Call.ContainerList true, Call.ContainerPause c.ID] ∧
      (makeHandler stopHandler "POST" cli name r (Exec.start s)).mutatingCalls =
        [Call.ContainerPause c.ID]) := by
  constructor
  · intro hs hu
    have h := makeHandler_resolved startHandler "POST" cli name r (Exec.start s) c hm hp hc
    have hu1 : cli.ContainerUnpause (Exec.start s).daemon c.ID = (some msg, s1) := hu
    have key : makeHandler startHandler "POST" cli name r (Exec.start s) =
        { daemon := s1, calls := [Call.ContainerList true, Call.ContainerUnpause c.ID],
          stdout := ["POST /start"],
          w := { header := [("Content-Type", "text/plain; charset=utf-8"),
                            ("X-Content-Type-Options", "nosniff")],
                 status := some 500, body := [Chunk.text (msg ++ "\n")] },
          panicked := none } := by
      rw [h]
      simp [startHandler, Exec.println, hs, hu1]
      exact ⟨rfl, rfl, rfl, rfl⟩
    rw [key]
    refine ⟨rfl, rfl, rfl, ?_, rfl, rfl⟩
    intro v hv
    simp at hv
  · intro hs hu
    have h := makeHandler_resolved stopHandler "POST" cli name r (Exec.start s) c hm hp hc
    have hu1 : cli.ContainerPause (Exec.start s).daemon c.ID = (some msg, s1) := hu
    have key : makeHandler stopHandler "POST" cli name r (Exec.start s) =
        { daemon := s1, calls := [Call.ContainerList true, Call.ContainerPause c.ID],
          stdout := ["POST /stop"],
          w := { header := [("Content-Type", "text/plain; charset=utf-8"),
                            ("X-Content-Type-Options", "nosniff")],
                 status := some 500, body := [Chunk.text (msg ++ "\n")] },
          panicked := none } := by
      rw [h]
      simp [stopHandler, Exec.println, hs, hu1]
      exact ⟨rfl, rfl, rfl, rfl⟩
    rw [key]
    refine ⟨rfl, rfl, rfl, ?_, rfl, rfl⟩
    intro v hv
    simp at hv

/-- Instance of `action_failure_is_500`: POST /start on a paused container and POST /stop on a
running container, on the daemon that rejects both calls. -/
theorem action_failure_is_500_witness :
    ((getContainer rejectingClient "web" (Exec.start [webPaused])).1 = Outcome.ok webPaused ∧
      (makeHandler startHandler "POST" rejectingClient "web"
        { Method := "POST", Path := "/start" } (Exec.start [webPaused])).w.status = some 500 ∧
      (makeHandler startHandler "POST" rejectingClient "web"
        { Method := "POST", Path := "/start" } (Exec.start [webPaused])).w.body =
          [Chunk.text "cannot unpause\n"]) ∧
    ((getContainer rejectingClient "web" (Exec.start [webRunning])).1 = Outcome.ok webRunning ∧
      (makeHandler stopHandler "POST" rejectingClient "web"
        { Method := "POST", Path := "/stop" } (Exec.start [webRunning])).w.status = some 500 ∧
      (makeHandler stopHandler "POST" rejectingClient "web"
        { Method := "POST", Path := "/stop" } (Exec.start [webRunning])).calls =
          [Call.ContainerList true, Call.ContainerPause "c"]) :=
  ⟨⟨rfl,
    ((action_failure_is_500 rejectingClient "web" { Method := "POST", Path := "/start" }
      [webPaused] [webPaused] webPaused "cannot unpause" rfl (Or.inr (Or.inl rfl)) rfl).1
      rfl rfl).1,
    ((action_failure_is_500 rejectingClient "web" { Method := "POST", Path := "/start" }
      [webPaused] [webPaused] webPaused "cannot unpause" rfl (Or.inr (Or.inl rfl)) rfl).1
      rfl rfl).2.1⟩,
   ⟨rfl,
    ((action_failure_is_500 rejectingClient "web" { Method := "POST", Path := "/stop" }
      [webRunning] [webRunning] webRunning "cannot pause" rfl (Or.inr (Or.inr rfl)) rfl).2
      rfl rfl).1,
    ((action_failure_is_500 rejectingClient "web" { Method := "POST", Path := "/stop" }
      [webRunning] [webRunning] webRunning "cannot pause" rfl (Or.inr (Or.inr rfl)) rfl).2
      rfl rfl).2.2.2.2.1⟩⟩

/-! ## The content type of the responses -/

/-- The 404 answer to GET on the start route and the 500 answer to a rejected unpause carry
the content type that `http.Error` sets, text/plain, not application/json. -/
theorem error_responses_are_not_json :
    ((Route.start.handler memClient "web" { Method := "GET", Path := "/start" }
        (Exec.start [webPaused])).w.status = some 404 ∧
      (Route.start.handler memClient "web" { Method := "GET", Path := "/start" }
        (Exec.start [webPaused])).w.getHeader "Content-Type" =
          some "text/plain; charset=utf-8" ∧
      (Route.start.handler memClient "web" { Method := "GET", Path := "/start" }
        (Exec.start [webPaused])).w.getHeader "Content-Type" ≠ some "application/json") ∧
    ((Route.start.handler rejectingClient "web" { Method := "POST", Path := "/start" }
        (Exec.start [webPaused])).w.status = some 500 ∧
      (Route.start.handler rejectingClient "web" { Method := "POST", Path := "/start" }
        (Exec.start [webPaused])).w.getHeader "Content-Type" =
          some "text/plain; charset=utf-8" ∧
      (Route.start.handler rejectingClient "web" { Method := "POST", Path := "/start" }
        (Exec.start [webPaused])).w.getHeader "Content-Type" ≠ some "application/json") := by
  decide

/-- C8 (amended): for each of the three registered handlers and every request, either the
handler panicked and nothing was written, or the response is 200 with content type
application/json, or the response is 404 or 500 with content type text/plain; charset=utf-8. -/
theorem content_type_by_status {σ : Type} (rt : Route) (cli : Client σ) (name : String)
    (r : Request) (s : σ) :
    ((rt.handler cli name r (Exec.start s)).panicked ≠ none ∧
      (rt.handler cli name r (Exec.start s)).w = ResponseWriter.fresh) ∨
    ((rt.handler cli name r (Exec.start s)).panicked = none ∧
      (rt.handler cli name r (Exec.start s)).w.status = some 200 ∧
      (rt.handler cli name r (Exec.start s)).w.getHeader "Content-Type" =
        some "application/json") ∨
    ((rt.handler cli name r (Exec.start s)).panicked = none ∧
      ((rt.handler cli name r (Exec.start s)).w.status = some 404 ∨
        (rt.handler cli name r (Exec.start s)).w.status = some 500) ∧
      (rt.handler cli name r (Exec.start s)).w.getHeader "Content-Type" =
        some "text/plain; charset=utf-8") := by
  unfold Route.handler
  by_cases hm : r.Method = rt.method
  · by_cases hp : r.Path = "/status" ∨ r.Path = "/start" ∨ r.Path = "/stop"
    · cases hc : (getContainer cli name (Exec.start s)).1 with
      | ok c =>
        rw [makeHandler_resolved rt.fn rt.method cli name r (Exec.start s) c hm hp hc]
        cases rt with
        | status => right; left; exact ⟨rfl, rfl, rfl⟩
        | start =>
          by_cases hs : c.State = "paused"
          · rcases hu : cli.ContainerUnpause (Exec.start s).daemon c.ID with ⟨o, s1⟩
            cases o with
            | none =>
              right; left
              simp only [Route.fn, startHandler, Exec.println, hs, hu, if_true]
              exact ⟨rfl, rfl, rfl⟩
            | some msg =>
              right; right
              simp only [Route.fn, startHandler, Exec.println, hs, hu, if_true]
              exact ⟨rfl, Or.inr rfl, rfl⟩
          · right; left
            simp only [Route.fn, startHandler, Exec.println, hs, if_false]
            exact ⟨rfl, rfl, rfl⟩
        | stop =>
          by_cases hs : c.State = "running"
          · rcases hu : cli.ContainerPause (Exec.start s).daemon c.ID with ⟨o, s1⟩
            cases o with
            | none =>
              right; left
              simp only [Route.fn, stopHandler, Exec.println, hs, hu, if_true]
              exact ⟨rfl, rfl, rfl⟩
            | some msg =>
              right; right
              simp only [Route.fn, stopHandler, Exec.println, hs, hu, if_true]
              exact ⟨rfl, Or.inr rfl, rfl⟩
          · right; left
            simp only [Route.fn, stopHandler, Exec.println, hs, if_false]
            exact ⟨rfl, rfl, rfl⟩
      | error msg =>
        rw [makeHandler_unresolved rt.fn rt.method cli name r (Exec.start s) msg hm hp hc]
        right; right
        exact ⟨rfl, Or.inl rfl, rfl⟩
      | panic msg =>
        rw [makeHandler_panicked rt.fn rt.method cli name r (Exec.start s) msg hm hp hc]
        left
        exact ⟨by simp, rfl⟩
    · have h1 : r.Path ≠ "/status" := fun h => hp (Or.inl h)
      have h2 : r.Path ≠ "/start" := fun h => hp (Or.inr (Or.inl h))
      have h3 : r.Path ≠ "/stop" := fun h => hp (Or.inr (Or.inr h))
      have hv : validPath r.Path = none := by simp [validPath, h1, h2, h3]
      right; right
      simp only [makeHandler, hm, hv, ne_eq, not_true_eq_false, if_false]
      exact ⟨rfl, Or.inl rfl, rfl⟩
  · right; right
    simp only [makeHandler, hm, ne_eq, not_false_eq_true, if_true]
    exact ⟨rfl, Or.inl rfl, rfl⟩

/-! ## Failure of the listing call -/

/-- On a daemon whose listing call fails, `getContainer` returns the daemon's own error, and
GET /status is answered 404 with exactly the response given when the listing succeeds and
holds no container of the configured name. -/
theorem listing_failure_answered_like_not_found :
    (getContainer downClient "web" (Exec.start ())).1 =
      Outcome.error "cannot connect to the Docker daemon" ∧
    (getContainer memClient "web" (Exec.start [])).1 =
      Outcome.error (notFoundMessage "web") ∧
    (Route.status.handler downClient "web" { Method := "GET", Path := "/status" }
      (Exec.start ())).w.status = some 404 ∧
    (Route.status.handler downClient "web" { Method := "GET", Path := "/status" }
      (Exec.start ())).w =
    (Route.status.handler memClient "web" { Method := "GET", Path := "/status" }
      (Exec.start [])).w := by
  decide

/-- C9 (amended): when the listing call fails with an error, `getContainer` returns that
error itself, and a request with the right method and a valid path is answered by
`http.NotFound` (404, "404 page not found"), the action handler is not run, the only client
call is the listing, no pause or unpause is issued and the daemon is left as it was. -/
theorem listing_failure_is_404 {σ : Type} (fn : HandlerFn σ) (method : String)
    (cli : Client σ) (name : String) (r : Request) (s : σ) (msg : String)
    (hm : r.Method = method) (hp : r.Path = "/status" ∨ r.Path = "/start" ∨ r.Path = "/stop")
    (hl : cli.ContainerList s true = Except.error msg) :
    (getContainer cli name (Exec.start s)).1 = Outcome.error msg ∧
    makeHandler fn method cli name r (Exec.start s) =
      { Exec.start s with calls := [Call.ContainerList true],
                          w := httpNotFound ResponseWriter.fresh } ∧
    (makeHandler fn method cli name r (Exec.start s)).w.status = some 404 ∧
    (makeHandler fn method cli name r (Exec.start s)).w.body =
      [Chunk.text "404 page not found\n"] ∧
    (makeHandler fn method cli name r (Exec.start s)).mutatingCalls = [] ∧
    (makeHandler fn method cli name r (Exec.start s)).daemon = s := by
  have hl1 : cli.ContainerList (Exec.start s).daemon true = Except.error msg := hl
  have hg : (getContainer cli name (Exec.start s)).1 = Outcome.error msg := by
    simp [getContainer, hl1]
  have key := makeHandler_unresolved fn method cli name r (Exec.start s) msg hm hp hg
  refine ⟨hg, ?_, ?_, ?_, ?_, ?_⟩ <;> rw [key] <;> rfl

/-- Instance of `listing_failure_is_404`: POST /stop on the unreachable daemon. -/
theorem listing_failure_is_404_witness :
    downClient.ContainerList () true = Except.error "cannot connect to the Docker daemon" ∧
    (makeHandler stopHandler "POST" downClient "web" { Method := "POST", Path := "/stop" }
      (Exec.start ())).w.status = some 404 ∧
    (makeHandler stopHandler "POST" downClient "web" { Method := "POST", Path := "/stop" }
      (Exec.start ())).mutatingCalls = [] :=
  ⟨rfl,
   (listing_failure_is_404 stopHandler "POST" downClient "web"
     { Method := "POST", Path := "/stop" } () "cannot connect to the Docker daemon"
     rfl (Or.inr (Or.inr rfl)) rfl).2.2.1,
   (listing_failure_is_404 stopHandler "POST" downClient "web"
     { Method := "POST", Path := "/stop" } () "cannot connect to the Docker daemon"
     rfl (Or.inr (Or.inr rfl)) rfl).2.2.2.2.1⟩

end DockerPauseApi
